import Mathlib

/-!
Shallow embedding of the liquidation-alerter monitoring core
(src/app/core/health.py, analytics.py, alerter.py, cascade.py,
src/app/services/reorg.py, src/app/core/engine.py).

Python floats are modelled by rationals; the "infinite health factor"
sentinel is modelled by a dedicated constructor of `HFVal`.  Every
division in the source is guarded by the same zero tests the source
performs, so total rational division never diverges from the float
semantics on the guarded branches.  Comparisons against the infinity
sentinel follow IEEE semantics (`inf > q` is true, `inf < q` is false,
`inf - inf` is NaN and every comparison with NaN is false), spelled out
case by case in the definitions below.
-/

namespace LA

/-- Health-factor value: a finite rational or the `float("inf")` sentinel
used by adapters for debt-free positions. -/
inductive HFVal where
  | inf : HFVal
  | fin : ℚ → HFVal
deriving DecidableEq, Repr

/-- Float comparison `hf < q` for a rational threshold `q` (`inf < q` is false). -/
def HFVal.ltQ : HFVal → ℚ → Bool
  | .inf, _ => false
  | .fin a, q => a < q

/-- Float comparison `hf <= q` for a rational threshold `q` (`inf <= q` is false). -/
def HFVal.leQ : HFVal → ℚ → Bool
  | .inf, _ => false
  | .fin a, q => a ≤ q

/-- Float comparison `hf > q` for a rational threshold `q` (`inf > q` is true). -/
def HFVal.gtQ : HFVal → ℚ → Bool
  | .inf, _ => true
  | .fin a, q => q < a

/-- Float comparison between two health-factor values (`a < b`). -/
def HFVal.lt : HFVal → HFVal → Bool
  | .fin a, .fin b => a < b
  | .fin _, .inf => true
  | .inf, _ => false

/-- Float comparison between two health-factor values (`a <= b`). -/
def HFVal.le : HFVal → HFVal → Bool
  | .fin a, .fin b => a ≤ b
  | .fin _, .inf => true
  | .inf, .fin _ => false
  | .inf, .inf => true

/-- Health status enumeration from src/app/core/health.py. -/
inductive HealthStatus where
  | HEALTHY | WARNING | CRITICAL | LIQUIDATABLE
deriving DecidableEq, Repr

/-- Status priority table from GasAwareAlerter._should_alert
(src/app/core/alerter.py lines 111-116). -/
def status_priority : HealthStatus → ℕ
  | .HEALTHY => 0
  | .WARNING => 1
  | .CRITICAL => 2
  | .LIQUIDATABLE => 3

/-- Position value object from src/app/protocols/base.py (fields consumed by
the core; per-asset line items are not consumed by any claimed code path). -/
structure Position where
  protocol : String
  wallet_address : String
  health_factor : HFVal
  total_collateral_usd : ℚ
  total_debt_usd : ℚ
  liquidation_threshold : ℚ
  available_borrows_usd : ℚ
  chain : String := "ethereum"
deriving DecidableEq, Repr

/-- calculate_normalized_score from src/app/core/health.py lines 46-55. -/
def calculate_normalized_score (health_factor : HFVal) : ℚ :=
  if health_factor = .inf ∨ health_factor.gtQ 10 then 100
  else match health_factor with
    | .inf => 100
    | .fin hf =>
      if hf ≤ 1 then 0
      else if hf ≤ 2 then (hf - 1) * 80
      else 80 + ((hf - 2) / 8) * 20

/-- UnifiedHealthScore result record from src/app/core/health.py lines 33-43.
The Python protocol-breakdown dict is modelled as an insertion-ordered
association list with in-place update on existing keys. -/
structure UnifiedHealthScore where
  overall_score : ℚ
  overall_status : HealthStatus
  total_collateral_usd : ℚ
  total_debt_usd : ℚ
  weighted_health_factor : HFVal
  worst_position : Option Position
  positions : List Position
  protocol_breakdown : List (String × HFVal)
deriving DecidableEq, Repr

/-- Insertion-ordered dict write `m[k] = v`: update in place when the key
exists, append otherwise. -/
def dict_insert (m : List (String × HFVal)) (k : String) (v : HFVal) :
    List (String × HFVal) :=
  if m.any (fun p => p.1 = k) then
    m.map (fun p => if p.1 = k then (k, v) else p)
  else m ++ [(k, v)]

/-- Accumulator of the position loop in calculate_unified_health_score
(src/app/core/health.py lines 158-178). -/
structure UnifiedAcc where
  weighted_hf_sum : ℚ
  weight_sum : ℚ
  min_hf : HFVal
  worst_position : Option Position
  protocol_breakdown : List (String × HFVal)
deriving DecidableEq, Repr

/-- Loop body of calculate_unified_health_score
(src/app/core/health.py lines 164-178). -/
def unified_step (acc : UnifiedAcc) (position : Position) : UnifiedAcc :=
  let acc1 :=
    if 0 < position.total_debt_usd then
      let hf := position.health_factor
      let weight := position.total_debt_usd
      let acc' :=
        match hf with
        | .fin q =>
          { acc with weighted_hf_sum := acc.weighted_hf_sum + q * weight,
                     weight_sum := acc.weight_sum + weight }
        | .inf => acc
      if hf.lt acc.min_hf then
        { acc' with min_hf := hf, worst_position := some position }
      else acc'
    else acc
  { acc1 with protocol_breakdown :=
      dict_insert acc1.protocol_breakdown position.protocol position.health_factor }

/-- Initial accumulator of the position loop (health.py lines 158-162). -/
def unified_init : UnifiedAcc :=
  { weighted_hf_sum := 0, weight_sum := 0, min_hf := .inf,
    worst_position := none, protocol_breakdown := [] }

/-- calculate_unified_health_score from src/app/core/health.py lines 133-209. -/
def calculate_unified_health_score (positions : List Position) : UnifiedHealthScore :=
  match positions with
  | [] =>
    { overall_score := 100
      overall_status := .HEALTHY
      total_collateral_usd := 0
      total_debt_usd := 0
      weighted_health_factor := .inf
      worst_position := none
      positions := []
      protocol_breakdown := [] }
  | _ :: _ =>
    let total_collateral := (positions.map (·.total_collateral_usd)).sum
    let total_debt := (positions.map (·.total_debt_usd)).sum
    let acc := positions.foldl unified_step unified_init
    let weighted_hf : HFVal :=
      if 0 < acc.weight_sum then .fin (acc.weighted_hf_sum / acc.weight_sum)
      else .inf
    let overall_score := calculate_normalized_score acc.min_hf
    let overall_status : HealthStatus :=
      if acc.min_hf.leQ 1 then .LIQUIDATABLE
      else if acc.min_hf.leQ (11/10) then .CRITICAL
      else if acc.min_hf.leQ (3/2) then .WARNING
      else .HEALTHY
    { overall_score := overall_score
      overall_status := overall_status
      total_collateral_usd := total_collateral
      total_debt_usd := total_debt
      weighted_health_factor := weighted_hf
      worst_position := acc.worst_position
      positions := positions
      protocol_breakdown := acc.protocol_breakdown }

/-- Invariant of the position loop of calculate_unified_health_score over
the processed prefix: the worst-position slot is empty only while every
debt-bearing position seen so far has an infinite health factor, and
otherwise holds a debt-bearing processed position whose health factor is
the tracked minimum and is not above the health factor of any debt-bearing
processed position. -/
def unified_inv (done : List Position) (acc : UnifiedAcc) : Prop :=
  (acc.worst_position = none →
    acc.min_hf = .inf
    ∧ ∀ p ∈ done, 0 < p.total_debt_usd → p.health_factor.lt .inf = false)
  ∧ (∀ w, acc.worst_position = some w →
      w ∈ done ∧ 0 < w.total_debt_usd ∧ acc.min_hf = w.health_factor
      ∧ ∀ p ∈ done, 0 < p.total_debt_usd →
          p.health_factor.lt acc.min_hf = false)

/-- Status waterfall on the minimum health factor as the spec words it
(spec section 4.2: fixed thresholds 1.0 / 1.1 / 1.5 against min_hf). -/
def waterfall_spec (min_hf : HFVal) : HealthStatus :=
  if min_hf.leQ 1 then .LIQUIDATABLE
  else if min_hf.leQ (11/10) then .CRITICAL
  else if min_hf.leQ (3/2) then .WARNING
  else .HEALTHY

/-- LiquidationPrediction record from src/app/core/analytics.py lines 21-25. -/
structure LiquidationPrediction where
  price_drop_to_liquidation_percent : Option ℚ
  estimated_time_to_liquidation : Option String
  risk_level : String
deriving DecidableEq, Repr

/-- calculate_liquidation_price_drop from src/app/core/analytics.py lines 52-67.
A Python ZeroDivisionError (raised by `1 / current_hf_factor` when
collateral times threshold is zero while debt is nonzero) is modelled as
`Except.error ()`. -/
def calculate_liquidation_price_drop (position : Position) :
    Except Unit (Option ℚ) :=
  if position.total_debt_usd = 0 ∨ position.health_factor = .inf then
    .ok none
  else
    let current_hf_factor :=
      position.total_collateral_usd * position.liquidation_threshold /
        position.total_debt_usd
    if current_hf_factor = 0 then .error ()
    else .ok (some (max 0 ((1 - 1 / current_hf_factor) * 100)))

/-- predict_liquidation from src/app/core/analytics.py lines 70-103. -/
def predict_liquidation (position : Position) :
    Except Unit LiquidationPrediction :=
  match calculate_liquidation_price_drop position with
  | .error e => .error e
  | .ok none =>
    .ok { price_drop_to_liquidation_percent := none
          estimated_time_to_liquidation := none
          risk_level := "None" }
  | .ok (some price_drop) =>
    let rl : String × String :=
      if price_drop ≤ 5 then ("Extreme", "Imminent (hours)")
      else if price_drop ≤ 10 then ("Very High", "Short-term (days)")
      else if price_drop ≤ 20 then ("High", "Medium-term (weeks)")
      else if price_drop ≤ 30 then ("Moderate", "Long-term (months)")
      else ("Low", "Very unlikely")
    .ok { price_drop_to_liquidation_percent := some price_drop
          estimated_time_to_liquidation := some rl.2
          risk_level := rl.1 }

/-- PositionState observation record from src/app/services/reorg.py lines 19-26
(the timestamp field is never consumed by the tracker logic). -/
structure PositionState where
  health_factor : HFVal
  total_collateral_usd : ℚ
  total_debt_usd : ℚ
  block_number : ℤ
deriving DecidableEq, Repr

/-- ConfirmedState record from src/app/services/reorg.py lines 29-38. -/
structure ConfirmedState where
  health_factor : HFVal
  total_collateral_usd : ℚ
  total_debt_usd : ℚ
  is_critical : Bool
  is_liquidatable : Bool
  confirmed_at_block : ℤ
  first_seen_at_block : ℤ
deriving DecidableEq, Repr

/-- ReorgSafeStateTracker._states_match from src/app/services/reorg.py
lines 176-197.  When either health factor is the infinity sentinel the
float expression evaluates to NaN or infinity and the strict comparison
is false, so only finite pairs can match. -/
def states_match (state1 state2 : PositionState) : Bool :=
  let hf_match : Bool :=
    match state1.health_factor, state2.health_factor with
    | .fin a, .fin b => |a - b| / max a (1/1000) < 1/100
    | _, _ => false
  let col_match : Bool :=
    |state1.total_collateral_usd - state2.total_collateral_usd| /
      max state1.total_collateral_usd 1 < 5/1000
  let debt_match : Bool :=
    |state1.total_debt_usd - state2.total_debt_usd| /
      max state1.total_debt_usd 1 < 5/1000
  hf_match && col_match && debt_match

/-- ReorgSafeStateTracker._confirmed_states_match from
src/app/services/reorg.py lines 199-207. -/
def confirmed_states_match (state1 state2 : ConfirmedState) : Bool :=
  state1.is_critical = state2.is_critical &&
    state1.is_liquidatable = state2.is_liquidatable

/-- Criticality test `health_factor < 1.3` (reorg.py line 135). -/
def hf_is_critical (hf : HFVal) : Bool := hf.ltQ (13/10)

/-- Liquidatability test `health_factor <= 1.0` (reorg.py line 136). -/
def hf_is_liquidatable (hf : HFVal) : Bool := hf.leQ 1

/-- Required confirmation depth (reorg.py lines 138-142): 2 blocks for
critical or liquidatable observations, 3 otherwise. -/
def required_blocks (hf : HFVal) : ℤ :=
  if hf_is_critical hf || hf_is_liquidatable hf then 2 else 3

/-- Append to a `deque(maxlen=10)`: evict from the left once full. -/
def push_history (history : List PositionState) (s : PositionState) :
    List PositionState :=
  let h := history ++ [s]
  if 10 < h.length then h.drop (h.length - 10) else h

/-- Earliest block of a history entry equivalent to the new observation
(reorg.py lines 144-148); the scan starts from the current block number. -/
def first_seen_block (history : List PositionState) (new_state : PositionState) : ℤ :=
  history.foldl
    (fun acc state =>
      if states_match state new_state then min acc state.block_number else acc)
    new_state.block_number

/-- Per-key state of ReorgSafeStateTracker: the bounded observation history
and the last confirmed state (reorg.py lines 65-72). -/
structure TrackerState where
  history : List PositionState
  confirmed : Option ConfirmedState
deriving DecidableEq, Repr

/-- Tracker state for a key that has never been observed. -/
def fresh_tracker : TrackerState := { history := [], confirmed := none }

/-- ReorgSafeStateTracker.record_state from src/app/services/reorg.py
lines 89-174, for one (wallet, protocol) key.  Returns the updated key
state, the is-new-confirmed-state flag, and the confirmed-state component
of the Python return value. -/
def record_state (σ : TrackerState) (new_state : PositionState) :
    TrackerState × Bool × Option ConfirmedState :=
  let history := push_history σ.history new_state
  if history.length < 2 then
    ({ history := history, confirmed := σ.confirmed }, false, none)
  else
    let is_critical := hf_is_critical new_state.health_factor
    let is_liquidatable := hf_is_liquidatable new_state.health_factor
    let required := required_blocks new_state.health_factor
    let first_seen := first_seen_block history new_state
    let blocks_confirmed := new_state.block_number - first_seen + 1
    if required ≤ blocks_confirmed then
      let confirmed : ConfirmedState :=
        { health_factor := new_state.health_factor
          total_collateral_usd := new_state.total_collateral_usd
          total_debt_usd := new_state.total_debt_usd
          is_critical := is_critical
          is_liquidatable := is_liquidatable
          confirmed_at_block := new_state.block_number
          first_seen_at_block := first_seen }
      let is_new : Bool :=
        match σ.confirmed with
        | none => true
        | some previous => ! confirmed_states_match previous confirmed
      ({ history := history, confirmed := some confirmed }, is_new, some confirmed)
    else
      ({ history := history, confirmed := σ.confirmed }, false, σ.confirmed)

/-- Alerting fragment of MonitoringEngine._process_position
(src/app/core/engine.py lines 450-474): after feeding the observation to
the reorg tracker, the Alert Dispatcher is invoked iff the returned
confirmed-state component is not None. -/
def process_position_invokes_alerter (σ : TrackerState) (obs : PositionState) : Bool :=
  match (record_state σ obs).2.2 with
  | none => false
  | some _ => true

/-- AlertRecord from src/app/core/alerter.py lines 16-21; times are seconds. -/
structure AlertRecord where
  status : HealthStatus
  health_factor : HFVal
  last_alert_time : ℚ
  alert_count : ℕ
deriving DecidableEq, Repr

/-- COOLDOWN_PERIODS table from src/app/core/alerter.py lines 69-74,
in seconds. -/
def cooldown_period : HealthStatus → ℚ
  | .LIQUIDATABLE => 300
  | .CRITICAL => 900
  | .WARNING => 3600
  | .HEALTHY => 86400

/-- Significant-drop test of GasAwareAlerter._should_alert
(alerter.py lines 123-126): guarded by `record.health_factor > 0`; with an
infinite recorded or current health factor the float quotient is NaN or
negative infinity and the strict comparison is false. -/
def hf_drop_significant (record_hf current_hf : HFVal) : Bool :=
  match record_hf, current_hf with
  | .fin r, .fin c => 0 < r && 1/10 < (r - c) / r
  | _, _ => false

/-- GasAwareAlerter._should_alert from src/app/core/alerter.py lines 94-133,
with the alert-history lookup for the key passed in as an option. -/
def should_alert (record? : Option AlertRecord) (current_status : HealthStatus)
    (current_hf : HFVal) (now : ℚ) : Bool × Option String :=
  match record? with
  | none => (true, some "first_alert")
  | some record =>
    if status_priority record.status < status_priority current_status then
      (true, some "status_worsened")
    else if hf_drop_significant record.health_factor current_hf then
      (true, some "significant_hf_drop")
    else if cooldown_period current_status ≤ now - record.last_alert_time then
      (true, some "cooldown_expired")
    else
      (false, none)

/-- Float value of a deterioration rate: Python float arithmetic on the
history endpoints can produce NaN or signed infinities. -/
inductive RateVal where
  | fin : ℚ → RateVal
  | pinf | ninf | nan
deriving DecidableEq, Repr

/-- Rate expression `((old_hf - current_hf) / old_hf) * 100` from
alerter.py line 54, for `old_hf` already known nonzero. -/
def rate_of (old_hf current_hf : HFVal) : RateVal :=
  match old_hf, current_hf with
  | .fin o, .fin c => .fin ((o - c) / o * 100)
  | .fin o, .inf => if 0 < o then .ninf else if o < 0 then .pinf else .nan
  | .inf, _ => .nan

/-- HealthHistory.add with the `deque(maxlen=60)` eviction
(alerter.py lines 27-32); entries are (timestamp, health factor). -/
def history_add (h : List (ℚ × HFVal)) (now : ℚ) (hf : HFVal) :
    List (ℚ × HFVal) :=
  let h' := h ++ [(now, hf)]
  if 60 < h'.length then h'.drop (h'.length - 60) else h'

/-- Search loop of get_deterioration_rate after the first sample
(alerter.py lines 43-48): break at the first sample with timestamp at or
after the cutoff and hand back the sample just before it. -/
def old_before (cutoff : ℚ) (prev : ℚ × HFVal) :
    List (ℚ × HFVal) → Option (ℚ × HFVal)
  | [] => none
  | x :: xs => if cutoff ≤ x.1 then some prev else old_before cutoff x xs

/-- Search loop of get_deterioration_rate (alerter.py lines 43-48): the old
sample stays unset when the very first sample is already inside the window
or when no sample is inside the window. -/
def old_sample (cutoff : ℚ) : List (ℚ × HFVal) → Option (ℚ × HFVal)
  | [] => none
  | x :: xs => if cutoff ≤ x.1 then none else old_before cutoff x xs

/-- Last element of a sample list (the `[-1]` index in alerter.py line 53). -/
def last_sample : List (ℚ × HFVal) → Option (ℚ × HFVal)
  | [] => none
  | [x] => some x
  | _ :: x :: xs => last_sample (x :: xs)

/-- HealthHistory.get_deterioration_rate from src/app/core/alerter.py
lines 34-56: take the sample just before the first in-window sample as the
old value; None when there are fewer than 2 samples, when the first sample
is already in the window, when no sample is in the window, or when the old
value is zero. -/
def get_deterioration_rate (h : List (ℚ × HFVal)) (now : ℚ)
    (window_minutes : ℚ) : Option RateVal :=
  if h.length < 2 then none
  else
    let cutoff := now - window_minutes * 60
    match old_sample cutoff h with
    | none => none
    | some (_, old_hf) =>
      if old_hf = .fin 0 then none
      else
        match last_sample h with
        | some (_, current_hf) => some (rate_of old_hf current_hf)
        | none => none

/-- Truthiness-guarded threshold test `rate and rate > threshold` from
alerter.py line 152 (0.0 and None are falsy; every NaN comparison is false). -/
def rate_triggers (rate? : Option RateVal) (threshold : ℚ) : Bool :=
  match rate? with
  | none => false
  | some (.fin q) => if q = 0 then false else threshold < q
  | some .pinf => true
  | some .ninf => false
  | some .nan => false

/-- GasAwareAlerter._is_gas_economical from src/app/core/alerter.py
lines 161-190. -/
def is_gas_economical (position : Position)
    (gas_price_gwei eth_price_usd : Option ℚ) : Bool × Option ℚ :=
  match gas_price_gwei, eth_price_usd with
  | some g, some e =>
    let gas_cost_usd := g * 200000 / 1000000000 * e
    if 0 < position.total_collateral_usd then
      if 5 < gas_cost_usd / position.total_collateral_usd * 100 then
        (false, some gas_cost_usd)
      else (true, some gas_cost_usd)
    else (true, some gas_cost_usd)
  | _, _ => (true, none)

/-- Outcome of one check_and_alert call: whether a message send is
attempted, the fire reason, and whether the gas-cost warning paragraph is
appended to the message. -/
structure AlerterDecision where
  sends : Bool
  reason : Option String
  gas_warning : Bool
deriving DecidableEq, Repr

/-- Decision logic of GasAwareAlerter.check_and_alert from
src/app/core/alerter.py lines 192-252, excluding the external message
transport: per-key alert record and (wallet, protocol) health history are
passed in, and the updated health history is returned alongside the
decision. -/
def check_and_alert (record? : Option AlertRecord) (history : List (ℚ × HFVal))
    (position : Position) (status : HealthStatus)
    (gas_price_gwei eth_price_usd : Option ℚ) (now : ℚ) :
    AlerterDecision × List (ℚ × HFVal) :=
  let history' := history_add history now position.health_factor
  let rapid_deterioration :=
    rate_triggers (get_deterioration_rate history' now 60) 10
  if status = .HEALTHY && ! rapid_deterioration then
    ({ sends := false, reason := none, gas_warning := false }, history')
  else
    let sa := should_alert record? status position.health_factor now
    let sa :=
      if rapid_deterioration && ! sa.1 then (true, some "rapid_deterioration")
      else sa
    if ! sa.1 then
      ({ sends := false, reason := none, gas_warning := false }, history')
    else
      let econ := is_gas_economical position gas_price_gwei eth_price_usd
      let warn := ! econ.1 &&
        (status = HealthStatus.CRITICAL || status = HealthStatus.LIQUIDATABLE)
      ({ sends := true, reason := sa.2, gas_warning := warn }, history')

/-- Loop of `dedup_strings` carrying the set of names already seen. -/
def dedup_loop (seen : List String) : List String → List String
  | [] => []
  | x :: xs =>
    if seen.contains x then dedup_loop seen xs
    else x :: dedup_loop (seen ++ [x]) xs

/-- Deduplication keeping the first occurrence, modelling the Python
`list(set(...))` of borrower addresses in cascade.py line 236. -/
def dedup_strings (l : List String) : List String := dedup_loop [] l

/-- LiquidationEvent from src/app/core/cascade.py lines 42-51. -/
structure LiquidationEvent where
  protocol : String
  block_number : ℤ
  tx_hash : String
  liquidator : String
  borrower : String
  debt_covered_usd : ℚ
  collateral_seized_usd : ℚ
  timestamp : ℚ
deriving DecidableEq, Repr

/-- CascadeAlert from src/app/core/cascade.py lines 54-62. -/
structure CascadeAlert where
  protocol : String
  liquidation_count : ℕ
  total_value_usd : ℚ
  time_window_minutes : ℕ
  affected_addresses : List String
  severity : String
  timestamp : ℚ
deriving DecidableEq, Repr

/-- Severity tier selection from LiquidationCascadeDetector._detect_cascade
(cascade.py lines 238-245), most severe tier checked first. -/
def cascade_severity (count : ℕ) (total_value : ℚ) : Option String :=
  if 20 ≤ count ∨ 10000000 ≤ total_value then some "severe"
  else if 10 ≤ count ∨ 5000000 ≤ total_value then some "critical"
  else if 5 ≤ count ∨ 1000000 ≤ total_value then some "warning"
  else none

/-- LiquidationCascadeDetector._detect_cascade from src/app/core/cascade.py
lines 227-269, for one protocol: takes the windowed event list, the last
cascade-alert time for the protocol, and the current time; returns the
optional alert and the updated last-alert time.  The Python
`list(set(...))` of borrowers is modelled as duplicate erasure. -/
def detect_cascade (protocol : String) (events : List LiquidationEvent)
    (last_alert : Option ℚ) (now : ℚ) : Option CascadeAlert × Option ℚ :=
  match events with
  | [] => (none, last_alert)
  | _ :: _ =>
    let count := events.length
    let total_value := (events.map (·.debt_covered_usd)).sum
    let affected := dedup_strings (events.map (·.borrower))
    match cascade_severity count total_value with
    | none => (none, last_alert)
    | some severity =>
      let blocked :=
        match last_alert with
        | some t => decide (now - t < 1800)
        | none => false
      if blocked then (none, last_alert)
      else
        ( some { protocol := protocol
                 liquidation_count := count
                 total_value_usd := total_value
                 time_window_minutes := 60
                 affected_addresses := affected.take 10
                 severity := severity
                 timestamp := now },
          some now )

/-! Concrete inputs used by witnesses and counterexamples. -/

/-- Alert record of a WARNING alert at health factor 1.5 and time 0. -/
def warning_record : AlertRecord :=
  { status := .WARNING, health_factor := .fin (3/2),
    last_alert_time := 0, alert_count := 1 }

/-- Observation 1 of the reorg-tracker scenario: critical state at block 100. -/
def c1_obs1 : PositionState := ⟨.fin (6/5), 1000, 900, 100⟩

/-- Observation 2: the same state one block later, which confirms it. -/
def c1_obs2 : PositionState := ⟨.fin (6/5), 1000, 900, 101⟩

/-- Observation 3: a very different healthy state at block 102, not yet
confirmed on its own. -/
def c1_obs3 : PositionState := ⟨.fin 5, 1000, 200, 102⟩

/-- Tracker state after the first two observations of the scenario. -/
def c1_state : TrackerState :=
  (record_state (record_state fresh_tracker c1_obs1).1 c1_obs2).1

/-- Confirmed state produced by the first two observations of the scenario. -/
def c1_conf : ConfirmedState := ⟨.fin (6/5), 1000, 900, true, false, 101, 100⟩

/-- Position with positive debt but zero collateral, on which
predict_liquidation divides by zero. -/
def c7_pos : Position :=
  { protocol := "p", wallet_address := "w", health_factor := .fin 0,
    total_collateral_usd := 0, total_debt_usd := 100,
    liquidation_threshold := 8/10, available_borrows_usd := 0 }

/-- Debt-bearing position with health factor 1.25 used to exercise the
normal path of predict_liquidation. -/
def c7_pos2 : Position :=
  { protocol := "p", wallet_address := "w", health_factor := .fin (5/4),
    total_collateral_usd := 1000, total_debt_usd := 640,
    liquidation_threshold := 8/10, available_borrows_usd := 0 }

/-- A single 100k-dollar liquidation event. -/
def c8_event : LiquidationEvent :=
  { protocol := "Aave V3", block_number := 1, tx_hash := "t",
    liquidator := "l", borrower := "b", debt_covered_usd := 100000,
    collateral_seized_usd := 110000, timestamp := 0 }

/-- Six 100k-dollar liquidation events inside the window. -/
def c8_events : List LiquidationEvent :=
  [c8_event, c8_event, c8_event, c8_event, c8_event, c8_event]

/-- Debt-free position with infinite health factor. -/
def cu_free : Position :=
  { protocol := "Maker", wallet_address := "w", health_factor := .inf,
    total_collateral_usd := 1000, total_debt_usd := 0,
    liquidation_threshold := 8/10, available_borrows_usd := 0 }

/-- Debt-bearing position with health factor 3.0. -/
def cu_pos_a : Position :=
  { protocol := "Aave V3", wallet_address := "w", health_factor := .fin 3,
    total_collateral_usd := 1000, total_debt_usd := 200,
    liquidation_threshold := 8/10, available_borrows_usd := 0 }

/-- Debt-bearing position with health factor 1.2. -/
def cu_pos_b : Position :=
  { protocol := "Compound V2", wallet_address := "w",
    health_factor := .fin (6/5), total_collateral_usd := 1000,
    total_debt_usd := 600, liquidation_threshold := 8/10,
    available_borrows_usd := 0 }

/-- Position with zero collateral and positive debt used for the gas-gate
counterexample. -/
def c9_pos : Position :=
  { protocol := "p", wallet_address := "w", health_factor := .fin (1/2),
    total_collateral_usd := 0, total_debt_usd := 100,
    liquidation_threshold := 8/10, available_borrows_usd := 0 }

/-- Collateral-bearing critical position used for gas-gate witnesses. -/
def c9_pos2 : Position :=
  { protocol := "p", wallet_address := "w", health_factor := .fin (21/20),
    total_collateral_usd := 1000, total_debt_usd := 800,
    liquidation_threshold := 8/10, available_borrows_usd := 0 }

/-- Alert record at health factor 1.0 and time 1000, about to be fed a
rapidly deteriorated observation. -/
def c4_record : AlertRecord :=
  { status := .HEALTHY, health_factor := .fin 1,
    last_alert_time := 1000, alert_count := 1 }

/-- Position at health factor 1.0 whose history shows a 50 percent drop. -/
def c4_pos : Position :=
  { protocol := "p", wallet_address := "w", health_factor := .fin 1,
    total_collateral_usd := 1000, total_debt_usd := 500,
    liquidation_threshold := 8/10, available_borrows_usd := 0 }

/-! Helper lemmas shared by several developments. -/

theorem HFVal.lt_irrefl (a : HFVal) : a.lt a = false := by
  cases a <;> simp [HFVal.lt]

theorem HFVal.lt_inf_eq_false_iff {a : HFVal} : a.lt .inf = false ↔ a = .inf := by
  cases a <;> simp [HFVal.lt]

theorem HFVal.lt_trans {a b c : HFVal} (hab : a.lt b = true) (hbc : b.lt c = true) :
    a.lt c = true := by
  cases a <;> cases b <;> cases c <;> simp_all [HFVal.lt]
  linarith

theorem HFVal.le_of_lt_eq_false {a b : HFVal} (h : a.lt b = false) :
    b.le a = true := by
  cases a <;> cases b <;> simp_all [HFVal.lt, HFVal.le]

/-- Explicit branch form of calculate_normalized_score on finite inputs. -/
theorem calculate_normalized_score_fin (q : ℚ) :
    calculate_normalized_score (.fin q) =
      if 10 < q then 100
      else if q ≤ 1 then 0
      else if q ≤ 2 then (q - 1) * 80
      else 80 + ((q - 2) / 8) * 20 := by
  simp [calculate_normalized_score, HFVal.gtQ]

theorem calculate_normalized_score_mono_fin {a b : ℚ} (hab : a ≤ b) :
    calculate_normalized_score (.fin a) ≤ calculate_normalized_score (.fin b) := by
  rw [calculate_normalized_score_fin, calculate_normalized_score_fin]
  split_ifs <;> linarith

theorem calculate_normalized_score_le_100 (a : HFVal) :
    calculate_normalized_score a ≤ 100 := by
  cases a with
  | inf => simp [calculate_normalized_score]
  | fin q =>
    rw [calculate_normalized_score_fin]
    split_ifs <;> linarith

/-- C5: calculate_normalized_score is monotonically non-decreasing in the
health factor, returns exactly 0 for every hf at most 1.0, exactly 80 at
hf = 2.0, and 100 for every hf at least 10 and at the infinity sentinel,
following the piecewise-linear map that sends [1.0, 2.0] to [0, 80] and
(2.0, 10.0] to [80, 100]. -/
theorem C5_normalized_score_shape :
    (∀ a b : HFVal, a.le b = true →
      calculate_normalized_score a ≤ calculate_normalized_score b)
    ∧ (∀ q : ℚ, q ≤ 1 → calculate_normalized_score (.fin q) = 0)
    ∧ calculate_normalized_score (.fin 2) = 80
    ∧ (∀ q : ℚ, 10 ≤ q → calculate_normalized_score (.fin q) = 100)
    ∧ calculate_normalized_score .inf = 100
    ∧ (∀ q : ℚ, 1 ≤ q → q ≤ 2 →
        calculate_normalized_score (.fin q) = (q - 1) * 80)
    ∧ (∀ q : ℚ, 2 < q → q ≤ 10 →
        calculate_normalized_score (.fin q) = 80 + ((q - 2) / 8) * 20) := by
  refine ⟨?_, ?_, ?_, ?_, ?_, ?_, ?_⟩
  · intro a b hab
    cases a with
    | inf =>
      cases b with
      | inf => exact le_refl _
      | fin qb => simp [HFVal.le] at hab
    | fin qa =>
      cases b with
      | inf => simpa [calculate_normalized_score] using
          calculate_normalized_score_le_100 (.fin qa)
      | fin qb =>
        simp only [HFVal.le, decide_eq_true_eq] at hab
        exact calculate_normalized_score_mono_fin hab
  · intro q hq
    rw [calculate_normalized_score_fin]
    rw [if_neg (by linarith), if_pos hq]
  · norm_num [calculate_normalized_score_fin]
  · intro q hq
    rw [calculate_normalized_score_fin]
    rcases lt_or_ge 10 q with h | h
    · rw [if_pos h]
    · have hq10 : q = 10 := le_antisymm h hq
      subst hq10
      norm_num
  · simp [calculate_normalized_score]
  · intro q h1 h2
    rw [calculate_normalized_score_fin]
    rw [if_neg (by linarith)]
    rcases lt_or_ge 1 q with h | h
    · rw [if_neg (by linarith), if_pos h2]
    · have hq1 : q = 1 := le_antisymm h h1
      subst hq1
      norm_num
  · intro q h1 h2
    rw [calculate_normalized_score_fin]
    rw [if_neg (by linarith), if_neg (by linarith), if_neg (by linarith)]

/-- Witness for C5 at concrete inputs. -/
theorem C5_normalized_score_shape_witness :
    calculate_normalized_score (.fin (3/2)) ≤ calculate_normalized_score (.fin 3)
    ∧ calculate_normalized_score (.fin (3/2)) = (3/2 - 1) * 80
    ∧ calculate_normalized_score (.fin 12) = 100 :=
  ⟨C5_normalized_score_shape.1 (.fin (3/2)) (.fin 3) (by norm_num [HFVal.le]),
   C5_normalized_score_shape.2.2.2.2.2.1 (3/2) (by norm_num) (by norm_num),
   C5_normalized_score_shape.2.2.2.1 12 (by norm_num)⟩

theorem hf_drop_significant_iff {a b : HFVal} :
    hf_drop_significant a b = true ↔
      ∃ r0 c, a = .fin r0 ∧ b = .fin c ∧ 0 < r0 ∧ 1/10 < (r0 - c) / r0 := by
  cases a <;> cases b <;> simp [hf_drop_significant]

/-- C2: the per-key fire decision of the dispatcher.  A key with no prior
AlertRecord always fires with reason first_alert; otherwise it fires exactly
when the status is strictly worse than the last alerted status on the scale
HEALTHY < WARNING < CRITICAL < LIQUIDATABLE (reason status_worsened,
bypassing cooldown), or the health factor dropped more than 10 percent
relative to the last alerted value (reason significant_hf_drop), or the
elapsed time reaches the status cooldown of 5 min for LIQUIDATABLE, 15 min
for CRITICAL, 1 h for WARNING, 24 h for HEALTHY (reason cooldown_expired);
in every other case it suppresses. -/
theorem C2_should_alert_decision :
    (∀ st hf now, should_alert none st hf now = (true, some "first_alert"))
    ∧ (∀ (r : AlertRecord) (st : HealthStatus) (hf : HFVal) (now : ℚ),
        ((should_alert (some r) st hf now).1 = true ↔
          (status_priority r.status < status_priority st
           ∨ (∃ r0 c, r.health_factor = .fin r0 ∧ hf = .fin c
                ∧ 0 < r0 ∧ 1/10 < (r0 - c) / r0)
           ∨ cooldown_period st ≤ now - r.last_alert_time))
        ∧ (status_priority r.status < status_priority st →
            should_alert (some r) st hf now = (true, some "status_worsened"))
        ∧ (¬ status_priority r.status < status_priority st →
           hf_drop_significant r.health_factor hf = true →
            should_alert (some r) st hf now = (true, some "significant_hf_drop"))
        ∧ (¬ status_priority r.status < status_priority st →
           hf_drop_significant r.health_factor hf = false →
           cooldown_period st ≤ now - r.last_alert_time →
            should_alert (some r) st hf now = (true, some "cooldown_expired"))
        ∧ (¬ status_priority r.status < status_priority st →
           hf_drop_significant r.health_factor hf = false →
           now - r.last_alert_time < cooldown_period st →
            should_alert (some r) st hf now = (false, none)))
    ∧ (status_priority .HEALTHY < status_priority .WARNING
       ∧ status_priority .WARNING < status_priority .CRITICAL
       ∧ status_priority .CRITICAL < status_priority .LIQUIDATABLE)
    ∧ (cooldown_period .LIQUIDATABLE = 5 * 60
       ∧ cooldown_period .CRITICAL = 15 * 60
       ∧ cooldown_period .WARNING = 60 * 60
       ∧ cooldown_period .HEALTHY = 24 * 60 * 60) := by
  refine ⟨fun st hf now => rfl, ?_, by norm_num [status_priority],
    by norm_num [cooldown_period]⟩
  intro r st hf now
  refine ⟨?_, ?_, ?_, ?_, ?_⟩
  · rw [← hf_drop_significant_iff]
    simp only [should_alert]
    split_ifs with h1 h2 h3 <;> simp_all
  · intro h1
    simp only [should_alert]
    rw [if_pos h1]
  · intro h1 h2
    simp only [should_alert]
    rw [if_neg h1, if_pos h2]
  · intro h1 h2 h3
    simp only [should_alert]
    rw [if_neg h1, if_neg (by simp [h2]), if_pos h3]
  · intro h1 h2 h3
    simp only [should_alert]
    rw [if_neg h1, if_neg (by simp [h2]), if_neg (by linarith)]

/-- Witness for C2 at concrete inputs: a WARNING to CRITICAL escalation
fires as status_worsened, and a repeat WARNING inside the cooldown with a
small drop is suppressed. -/
theorem C2_should_alert_decision_witness :
    should_alert (some warning_record) .CRITICAL (.fin (21/20)) 60
      = (true, some "status_worsened")
    ∧ should_alert (some warning_record) .WARNING (.fin (29/20)) 60
      = (false, none) :=
  ⟨(C2_should_alert_decision.2.1 warning_record .CRITICAL (.fin (21/20)) 60).2.1
      (by norm_num [status_priority, warning_record]),
   ((C2_should_alert_decision.2.1 warning_record .WARNING (.fin (29/20)) 60).2.2.2.2)
      (by norm_num [status_priority, warning_record])
      (by norm_num [hf_drop_significant, warning_record])
      (by norm_num [cooldown_period, warning_record])⟩

theorem record_state_single (σ : TrackerState) (obs : PositionState)
    (h : σ.history = []) :
    record_state σ obs = (⟨[obs], σ.confirmed⟩, false, none) := by
  simp [record_state, push_history, h]

theorem states_match_same (hf c d : ℚ) (b1 b2 : ℤ) :
    states_match ⟨.fin hf, c, d, b1⟩ ⟨.fin hf, c, d, b2⟩ = true := by
  have h1 : (0:ℚ) < max hf (1/1000) := lt_max_of_lt_right (by norm_num)
  have h2 : (0:ℚ) < max c 1 := lt_max_of_lt_right (by norm_num)
  have h3 : (0:ℚ) < max d 1 := lt_max_of_lt_right (by norm_num)
  simp [states_match, sub_self, abs_zero, zero_div]

/-- C3: from a fresh key, a single observation never yields a confirmed
state; with an empty prior history a state is never confirmed regardless of
elapsed blocks; two consecutive equal observations with health factor below
1.3 at adjacent block numbers produce a confirmed state (required depth 2);
two consecutive equal observations with health factor at least 1.3 at
adjacent block numbers do not (required depth 3). -/
theorem C3_confirmation_depth :
    (∀ obs, (record_state fresh_tracker obs).2 = (false, none))
    ∧ (∀ σ obs, σ.history = [] → (record_state σ obs).2 = (false, none))
    ∧ (∀ hf c d : ℚ, ∀ b : ℤ, hf < 13/10 →
        required_blocks (.fin hf) = 2
        ∧ (record_state (record_state fresh_tracker ⟨.fin hf, c, d, b⟩).1
            ⟨.fin hf, c, d, b + 1⟩).2
          = (true, some ⟨.fin hf, c, d, true, decide (hf ≤ 1), b + 1, b⟩))
    ∧ (∀ hf c d : ℚ, ∀ b : ℤ, 13/10 ≤ hf →
        required_blocks (.fin hf) = 3
        ∧ (record_state (record_state fresh_tracker ⟨.fin hf, c, d, b⟩).1
            ⟨.fin hf, c, d, b + 1⟩).2 = (false, none)) := by
  have hsingle : ∀ σ obs, σ.history = [] →
      (record_state σ obs).2 = (false, none) := by
    intro σ obs h
    rw [record_state_single σ obs h]
  refine ⟨fun obs => hsingle fresh_tracker obs rfl, hsingle, ?_, ?_⟩
  · intro hf c d b hcrit
    have hc : hf_is_critical (.fin hf) = true := by
      simp [hf_is_critical, HFVal.ltQ, hcrit]
    refine ⟨by simp [required_blocks, hc], ?_⟩
    rw [record_state_single fresh_tracker _ rfl]
    have e1 : first_seen_block [⟨.fin hf, c, d, b⟩, ⟨.fin hf, c, d, b + 1⟩]
        ⟨.fin hf, c, d, b + 1⟩ = b := by
      simp [first_seen_block, List.foldl, states_match_same]
    have e2 : b + 1 - b + 1 = (2:ℤ) := by omega
    simp [record_state, push_history, e1, e2, required_blocks, hc,
      fresh_tracker, hf_is_liquidatable, HFVal.leQ]
  · intro hf c d b hncrit
    have hc : hf_is_critical (.fin hf) = false := by
      simp [hf_is_critical, HFVal.ltQ]
      linarith
    have hl : hf_is_liquidatable (.fin hf) = false := by
      simp [hf_is_liquidatable, HFVal.leQ]
      linarith
    refine ⟨by simp [required_blocks, hc, hl], ?_⟩
    rw [record_state_single fresh_tracker _ rfl]
    have e1 : first_seen_block [⟨.fin hf, c, d, b⟩, ⟨.fin hf, c, d, b + 1⟩]
        ⟨.fin hf, c, d, b + 1⟩ = b := by
      simp [first_seen_block, List.foldl, states_match_same]
    have e2 : ¬ ((3:ℤ) ≤ b + 1 - b + 1) := by omega
    simp [record_state, push_history, e1, required_blocks, hc, hl,
      fresh_tracker, e2]

/-- Witness for C3 at concrete inputs: health factor 1.2 confirms after two
adjacent-block observations, health factor 2.0 does not. -/
theorem C3_confirmation_depth_witness :
    (record_state (record_state fresh_tracker ⟨.fin (6/5), 1000, 900, 100⟩).1
        ⟨.fin (6/5), 1000, 900, 101⟩).2
      = (true, some ⟨.fin (6/5), 1000, 900, true, decide ((6:ℚ)/5 ≤ 1), 101, 100⟩)
    ∧ (record_state (record_state fresh_tracker ⟨.fin 2, 1000, 400, 100⟩).1
        ⟨.fin 2, 1000, 400, 101⟩).2 = (false, none) :=
  ⟨(C3_confirmation_depth.2.2.1 (6/5) 1000 900 100 (by norm_num)).2,
   (C3_confirmation_depth.2.2.2 2 1000 400 100 (by norm_num)).2⟩

/-- C1 counterexample: after a confirmed critical state at block 101, the
healthy observation at block 102 has accumulated only 1 of the 3 required
block confirmations, yet record_state returns the previously confirmed
state (not an absent confirmed-state component) and the orchestrator
therefore invokes the Alert Dispatcher for that observation. -/
theorem C1_counterexample :
    c1_obs3.block_number
        - first_seen_block (push_history c1_state.history c1_obs3) c1_obs3 + 1 = 1
    ∧ required_blocks c1_obs3.health_factor = 3
    ∧ (record_state c1_state c1_obs3).2.1 = false
    ∧ (record_state c1_state c1_obs3).2.2 = some c1_conf
    ∧ process_position_invokes_alerter c1_state c1_obs3 = true := by
  norm_num [c1_state, c1_obs1, c1_obs2, c1_obs3, c1_conf, record_state,
    fresh_tracker, push_history, first_seen_block, states_match,
    hf_is_critical, hf_is_liquidatable, required_blocks, HFVal.ltQ, HFVal.leQ,
    process_position_invokes_alerter, List.foldl, confirmed_states_match]

/-- C1 amended: when the appended history has fewer than 2 samples
record_state returns no confirmed state; when the current observation has
accumulated fewer block confirmations than the required depth, record_state
returns is_new = false together with the key's previously confirmed state
(absent only when nothing was ever confirmed); the orchestrator skips the
Alert Dispatcher exactly when that component is absent, so it still invokes
the dispatcher on a stale confirmed state. -/
theorem C1_unconfirmed_returns_previous_confirmed :
    ∀ (σ : TrackerState) (obs : PositionState),
      ((push_history σ.history obs).length < 2 →
        record_state σ obs = (⟨push_history σ.history obs, σ.confirmed⟩, false, none))
      ∧ (2 ≤ (push_history σ.history obs).length →
         obs.block_number - first_seen_block (push_history σ.history obs) obs + 1
             < required_blocks obs.health_factor →
         record_state σ obs
           = (⟨push_history σ.history obs, σ.confirmed⟩, false, σ.confirmed))
      ∧ (∀ c, 2 ≤ (push_history σ.history obs).length →
         obs.block_number - first_seen_block (push_history σ.history obs) obs + 1
             < required_blocks obs.health_factor →
         σ.confirmed = some c →
         process_position_invokes_alerter σ obs = true) := by
  intro σ obs
  have h2 : ∀ (_ : 2 ≤ (push_history σ.history obs).length)
      (_ : obs.block_number
          - first_seen_block (push_history σ.history obs) obs + 1
          < required_blocks obs.health_factor),
      record_state σ obs
        = (⟨push_history σ.history obs, σ.confirmed⟩, false, σ.confirmed) := by
    intro hlen hblocks
    simp only [record_state]
    rw [if_neg (by omega), if_neg (by omega)]
  refine ⟨?_, h2, ?_⟩
  · intro hlen
    simp only [record_state]
    rw [if_pos hlen]
  · intro c hlen hblocks hc
    simp only [process_position_invokes_alerter, h2 hlen hblocks, hc]

/-- Witness for the amended C1 at the concrete three-observation scenario. -/
theorem C1_unconfirmed_returns_previous_confirmed_witness :
    record_state c1_state c1_obs3
      = (⟨push_history c1_state.history c1_obs3, c1_state.confirmed⟩,
         false, c1_state.confirmed)
    ∧ process_position_invokes_alerter c1_state c1_obs3 = true := by
  have hlen : 2 ≤ (push_history c1_state.history c1_obs3).length := by
    norm_num [c1_state, c1_obs1, c1_obs2, c1_obs3, record_state, fresh_tracker,
      push_history, first_seen_block, states_match, hf_is_critical,
      hf_is_liquidatable, required_blocks, HFVal.ltQ, HFVal.leQ, List.foldl]
  have hblocks : c1_obs3.block_number
      - first_seen_block (push_history c1_state.history c1_obs3) c1_obs3 + 1
      < required_blocks c1_obs3.health_factor := by
    norm_num [c1_state, c1_obs1, c1_obs2, c1_obs3, record_state, fresh_tracker,
      push_history, first_seen_block, states_match, hf_is_critical,
      hf_is_liquidatable, required_blocks, HFVal.ltQ, HFVal.leQ, List.foldl]
  have hc : c1_state.confirmed = some c1_conf := by
    norm_num [c1_state, c1_obs1, c1_obs2, c1_conf, record_state, fresh_tracker,
      push_history, first_seen_block, states_match, hf_is_critical,
      hf_is_liquidatable, required_blocks, HFVal.ltQ, HFVal.leQ, List.foldl]
  exact ⟨(C1_unconfirmed_returns_previous_confirmed c1_state c1_obs3).2.1
      hlen hblocks,
    (C1_unconfirmed_returns_previous_confirmed c1_state c1_obs3).2.2
      c1_conf hlen hblocks hc⟩

/-- C7 counterexample: a position with positive debt, zero collateral and
finite health factor makes predict_liquidation raise a ZeroDivisionError
instead of returning a prediction, so the claim that every position with
positive debt yields a drop percentage and never fails is false. -/
theorem C7_counterexample :
    0 < c7_pos.total_debt_usd ∧ predict_liquidation c7_pos = .error () := by
  refine ⟨by norm_num [c7_pos], ?_⟩
  simp [c7_pos, predict_liquidation, calculate_liquidation_price_drop]

/-- C7 amended: predict_liquidation returns both None fields iff the debt
is zero or the health factor is the infinity sentinel (equivalently, under
the adapter invariant, iff the debt is zero); for every position with
nonzero debt, finite health factor and nonzero collateral-times-threshold
it returns drop_pct = max(0, (1 - 1/((collateral*threshold)/debt)) * 100)
with a defined risk tier; when collateral-times-threshold is zero it
raises a division error. -/
theorem C7_predict_liquidation_amended :
    (∀ p : Position,
      ((∃ pred, predict_liquidation p = .ok pred
          ∧ pred.price_drop_to_liquidation_percent = none
          ∧ pred.estimated_time_to_liquidation = none)
        ↔ (p.total_debt_usd = 0 ∨ p.health_factor = .inf)))
    ∧ (∀ p : Position, p.total_debt_usd ≠ 0 → p.health_factor ≠ .inf →
        p.total_collateral_usd * p.liquidation_threshold ≠ 0 →
        ∃ pred, predict_liquidation p = .ok pred
          ∧ pred.price_drop_to_liquidation_percent
              = some (max 0 ((1 - 1 / (p.total_collateral_usd *
                  p.liquidation_threshold / p.total_debt_usd)) * 100))
          ∧ pred.risk_level ∈ ["Extreme", "Very High", "High", "Moderate", "Low"]
          ∧ pred.estimated_time_to_liquidation ≠ none)
    ∧ (∀ p : Position, p.total_debt_usd ≠ 0 → p.health_factor ≠ .inf →
        p.total_collateral_usd * p.liquidation_threshold = 0 →
        predict_liquidation p = .error ()) := by
  refine ⟨?_, ?_, ?_⟩
  · intro p
    by_cases hg : p.total_debt_usd = 0 ∨ p.health_factor = .inf
    · simp [predict_liquidation, calculate_liquidation_price_drop, hg]
    · simp only [predict_liquidation, calculate_liquidation_price_drop,
        if_neg hg]
      by_cases hz : p.total_collateral_usd * p.liquidation_threshold /
          p.total_debt_usd = 0
      · simp [hz, hg]
      · simp [hz, hg]
  · intro p hd hinf hcoll
    have hg : ¬ (p.total_debt_usd = 0 ∨ p.health_factor = .inf) := by
      simp [hd, hinf]
    have hz : p.total_collateral_usd * p.liquidation_threshold /
        p.total_debt_usd ≠ 0 := div_ne_zero hcoll hd
    simp only [predict_liquidation, calculate_liquidation_price_drop,
      if_neg hg, if_neg hz]
    refine ⟨_, rfl, rfl, ?_, by simp⟩
    split_ifs <;> simp
  · intro p hd hinf hcoll
    have hg : ¬ (p.total_debt_usd = 0 ∨ p.health_factor = .inf) := by
      simp [hd, hinf]
    simp [predict_liquidation, calculate_liquidation_price_drop, if_neg hg,
      hcoll]

/-- Witness for the amended C7: the health-factor-1.25 position needs a 20
percent drop. -/
theorem C7_predict_liquidation_amended_witness :
    (predict_liquidation c7_pos2).map
      (fun pred => pred.price_drop_to_liquidation_percent) = .ok (some 20) := by
  obtain ⟨pred, hok, hdrop, _, _⟩ :=
    C7_predict_liquidation_amended.2.1 c7_pos2
      (by norm_num [c7_pos2]) (by simp [c7_pos2]) (by norm_num [c7_pos2])
  rw [hok]
  simp only [Except.map, hdrop, c7_pos2]
  norm_num

/-- C8: severity of the per-protocol cascade verdict is classified
first-match-most-severe (severe at 20 events or 10M dollars, critical at 10
events or 5M dollars, warning at 5 events or 1M dollars, else no alert),
and once an alert has been produced for a protocol, any condition
re-checked within 30 minutes produces no alert. -/
theorem C8_cascade_severity_and_cooldown :
    (∀ (protocol : String) (events : List LiquidationEvent) (now : ℚ),
      events ≠ [] →
      ((20 ≤ events.length ∨ 10000000 ≤ (events.map (·.debt_covered_usd)).sum →
         ((detect_cascade protocol events none now).1.map (·.severity))
           = some "severe")
       ∧ (events.length < 20 →
          (events.map (·.debt_covered_usd)).sum < 10000000 →
          (10 ≤ events.length ∨ 5000000 ≤ (events.map (·.debt_covered_usd)).sum) →
          ((detect_cascade protocol events none now).1.map (·.severity))
            = some "critical")
       ∧ (events.length < 10 →
          (events.map (·.debt_covered_usd)).sum < 5000000 →
          (5 ≤ events.length ∨ 1000000 ≤ (events.map (·.debt_covered_usd)).sum) →
          ((detect_cascade protocol events none now).1.map (·.severity))
            = some "warning")
       ∧ (events.length < 5 →
          (events.map (·.debt_covered_usd)).sum < 1000000 →
          (detect_cascade protocol events none now).1 = none)))
    ∧ (∀ (protocol : String) (events : List LiquidationEvent) (t now : ℚ),
        now - t < 1800 →
        (detect_cascade protocol events (some t) now).1 = none)
    ∧ (∀ (protocol : String) (events : List LiquidationEvent)
        (last_alert : Option ℚ) (now : ℚ) (a : CascadeAlert),
        (detect_cascade protocol events last_alert now).1 = some a →
        (detect_cascade protocol events last_alert now).2 = some now) := by
  refine ⟨?_, ?_, ?_⟩
  · intro protocol events now hne
    obtain ⟨e, es, rfl⟩ : ∃ e es, events = e :: es := by
      cases events with
      | nil => exact absurd rfl hne
      | cons e es => exact ⟨e, es, rfl⟩
    refine ⟨?_, ?_, ?_, ?_⟩
    · intro hsev
      simp only [detect_cascade, cascade_severity, if_pos hsev]
      simp
    · intro hc1 hv1 hcrit
      have h1 : ¬ (20 ≤ (e :: es).length
          ∨ 10000000 ≤ ((e :: es).map (·.debt_covered_usd)).sum) := by
        push_neg
        exact ⟨hc1, hv1⟩
      simp only [detect_cascade, cascade_severity, if_neg h1, if_pos hcrit]
      simp
    · intro hc1 hv1 hwarn
      have h1 : ¬ (20 ≤ (e :: es).length
          ∨ 10000000 ≤ ((e :: es).map (·.debt_covered_usd)).sum) := by
        push_neg
        exact ⟨by omega, by linarith⟩
      have h2 : ¬ (10 ≤ (e :: es).length
          ∨ 5000000 ≤ ((e :: es).map (·.debt_covered_usd)).sum) := by
        push_neg
        exact ⟨hc1, hv1⟩
      simp only [detect_cascade, cascade_severity, if_neg h1, if_neg h2,
        if_pos hwarn]
      simp
    · intro hc1 hv1
      have h1 : ¬ (20 ≤ (e :: es).length
          ∨ 10000000 ≤ ((e :: es).map (·.debt_covered_usd)).sum) := by
        push_neg
        exact ⟨by omega, by linarith⟩
      have h2 : ¬ (10 ≤ (e :: es).length
          ∨ 5000000 ≤ ((e :: es).map (·.debt_covered_usd)).sum) := by
        push_neg
        exact ⟨by omega, by linarith⟩
      have h3 : ¬ (5 ≤ (e :: es).length
          ∨ 1000000 ≤ ((e :: es).map (·.debt_covered_usd)).sum) := by
        push_neg
        exact ⟨hc1, hv1⟩
      simp only [detect_cascade, cascade_severity, if_neg h1, if_neg h2,
        if_neg h3]
  · intro protocol events t now ht
    cases events with
    | nil => rfl
    | cons e es =>
      simp only [detect_cascade]
      cases hsev : cascade_severity (e :: es).length
          ((e :: es).map (·.debt_covered_usd)).sum with
      | none => rfl
      | some sev => simp [ht]
  · intro protocol events last_alert now a hfired
    cases events with
    | nil => simp [detect_cascade] at hfired
    | cons e es =>
      unfold detect_cascade at hfired ⊢
      cases hsev : cascade_severity (e :: es).length
          ((e :: es).map (·.debt_covered_usd)).sum with
      | none =>
        have hsev' : cascade_severity (es.length + 1)
            (e.debt_covered_usd
              + (List.map (fun x => x.debt_covered_usd) es).sum) = none := by
          simpa using hsev
        simp [hsev'] at hfired
      | some sev =>
        have hsev' : cascade_severity (es.length + 1)
            (e.debt_covered_usd
              + (List.map (fun x => x.debt_covered_usd) es).sum) = some sev := by
          simpa using hsev
        cases last_alert with
        | none => simp [hsev']
        | some t =>
          by_cases hc : now - t < 1800
          · simp [hsev', hc] at hfired
          · simp [hsev', hc]

/-- Witness for C8: six 100k events classify as a warning, and a re-check
15 minutes after an alert yields no alert. -/
theorem C8_cascade_severity_and_cooldown_witness :
    ((detect_cascade "Aave V3" c8_events none 0).1.map (·.severity))
      = some "warning"
    ∧ (detect_cascade "Aave V3" c8_events (some 0) 900).1 = none :=
  ⟨((C8_cascade_severity_and_cooldown.1 "Aave V3" c8_events 0
        (by simp [c8_events])).2.2.1)
      (by norm_num [c8_events])
      (by norm_num [c8_events, c8_event])
      (Or.inl (by norm_num [c8_events])),
   C8_cascade_severity_and_cooldown.2.1 "Aave V3" c8_events 0 900
      (by norm_num)⟩

theorem HFVal.inf_lt (b : HFVal) : HFVal.lt .inf b = false := by
  cases b <;> rfl

theorem HFVal.le_inf (a : HFVal) : a.le .inf = true := by
  cases a <;> rfl

theorem unified_step_no_debt {acc : UnifiedAcc} {p : Position}
    (hd : ¬ 0 < p.total_debt_usd) :
    (unified_step acc p).worst_position = acc.worst_position
    ∧ (unified_step acc p).min_hf = acc.min_hf
    ∧ (unified_step acc p).weighted_hf_sum = acc.weighted_hf_sum
    ∧ (unified_step acc p).weight_sum = acc.weight_sum := by
  simp [unified_step, hd]

theorem unified_step_update {acc : UnifiedAcc} {p : Position}
    (hd : 0 < p.total_debt_usd)
    (hlt : p.health_factor.lt acc.min_hf = true) :
    (unified_step acc p).worst_position = some p
    ∧ (unified_step acc p).min_hf = p.health_factor := by
  simp [unified_step, hd, hlt]

theorem unified_step_keep {acc : UnifiedAcc} {p : Position}
    (hd : 0 < p.total_debt_usd)
    (hlt : p.health_factor.lt acc.min_hf = false) :
    (unified_step acc p).worst_position = acc.worst_position
    ∧ (unified_step acc p).min_hf = acc.min_hf := by
  cases hhf : p.health_factor with
  | inf =>
    rw [hhf] at hlt
    simp [unified_step, hd, hhf, hlt]
  | fin q =>
    rw [hhf] at hlt
    simp [unified_step, hd, hhf, hlt]

theorem unified_step_inv {done : List Position} {acc : UnifiedAcc}
    (h : unified_inv done acc) (p : Position) :
    unified_inv (done ++ [p]) (unified_step acc p) := by
  by_cases hd : 0 < p.total_debt_usd
  · by_cases hlt : p.health_factor.lt acc.min_hf = true
    · obtain ⟨hw, hm⟩ := unified_step_update hd hlt
      constructor
      · intro hnone
        rw [hw] at hnone
        exact absurd hnone (by simp)
      · intro w hww
        rw [hw] at hww
        have hpw : p = w := by injection hww
        subst hpw
        refine ⟨by simp, hd, hm, ?_⟩
        intro q hq hqd
        rw [hm]
        rcases List.mem_append.mp hq with hq | hq
        · rcases hacc : acc.worst_position with _ | w0
          · obtain ⟨hminf, hall⟩ := h.1 hacc
            have hql : q.health_factor.lt .inf = false := hall q hq hqd
            have hqinf : q.health_factor = .inf := HFVal.lt_inf_eq_false_iff.mp hql
            rw [hqinf]
            exact HFVal.inf_lt _
          · obtain ⟨_, _, _, hall⟩ := h.2 w0 hacc
            have hqf : q.health_factor.lt acc.min_hf = false := hall q hq hqd
            cases hql : q.health_factor.lt p.health_factor
            · rfl
            · exact absurd (HFVal.lt_trans hql hlt) (by simp [hqf])
        · simp at hq
          subst hq
          exact HFVal.lt_irrefl _
    · have hltf : p.health_factor.lt acc.min_hf = false := by
        cases hb : p.health_factor.lt acc.min_hf
        · rfl
        · exact absurd hb hlt
      obtain ⟨hw, hm⟩ := unified_step_keep hd hltf
      constructor
      · intro hnone
        rw [hw] at hnone
        obtain ⟨hminf, hall⟩ := h.1 hnone
        refine ⟨by rw [hm, hminf], ?_⟩
        intro q hq hqd
        rcases List.mem_append.mp hq with hq | hq
        · exact hall q hq hqd
        · simp at hq
          subst hq
          rw [hminf] at hltf
          exact hltf
      · intro w hww
        rw [hw] at hww
        obtain ⟨hmem, hwd, hm0, hall⟩ := h.2 w hww
        refine ⟨List.mem_append.mpr (.inl hmem), hwd, by rw [hm, hm0], ?_⟩
        intro q hq hqd
        rw [hm]
        rcases List.mem_append.mp hq with hq | hq
        · exact hall q hq hqd
        · simp at hq
          subst hq
          exact hltf
  · obtain ⟨hw, hm, _, _⟩ := unified_step_no_debt hd
    constructor
    · intro hnone
      rw [hw] at hnone
      obtain ⟨hminf, hall⟩ := h.1 hnone
      refine ⟨by rw [hm, hminf], ?_⟩
      intro q hq hqd
      rcases List.mem_append.mp hq with hq | hq
      · exact hall q hq hqd
      · simp at hq
        subst hq
        exact absurd hqd hd
    · intro w hww
      rw [hw] at hww
      obtain ⟨hmem, hwd, hm0, hall⟩ := h.2 w hww
      refine ⟨List.mem_append.mpr (.inl hmem), hwd, by rw [hm, hm0], ?_⟩
      intro q hq hqd
      rw [hm]
      rcases List.mem_append.mp hq with hq | hq
      · exact hall q hq hqd
      · simp at hq
        subst hq
        exact absurd hqd hd

theorem foldl_unified_inv (l : List Position) :
    ∀ (done : List Position) (acc : UnifiedAcc), unified_inv done acc →
      unified_inv (done ++ l) (l.foldl unified_step acc) := by
  induction l with
  | nil =>
    intro done acc h
    simpa using h
  | cons p ps ih =>
    intro done acc h
    have h2 := ih (done ++ [p]) (unified_step acc p) (unified_step_inv h p)
    simpa using h2

theorem unified_inv_init : unified_inv [] unified_init := by
  constructor
  · intro _
    exact ⟨rfl, by simp⟩
  · intro w hw
    simp [unified_init] at hw

theorem foldl_unified_step_zero_debt (l : List Position) :
    ∀ acc : UnifiedAcc, (∀ p ∈ l, p.total_debt_usd = 0) →
      (l.foldl unified_step acc).worst_position = acc.worst_position
      ∧ (l.foldl unified_step acc).min_hf = acc.min_hf
      ∧ (l.foldl unified_step acc).weight_sum = acc.weight_sum := by
  induction l with
  | nil => intro acc _; exact ⟨rfl, rfl, rfl⟩
  | cons p ps ih =>
    intro acc h
    have hp : p.total_debt_usd = 0 := h p (by simp)
    have hd : ¬ 0 < p.total_debt_usd := by rw [hp]; exact lt_irrefl 0
    obtain ⟨h1, h2, _, h4⟩ := @unified_step_no_debt acc p hd
    have hrest := ih (unified_step acc p) (fun q hq => h q (by simp [hq]))
    rw [List.foldl_cons]
    exact ⟨hrest.1.trans h1, hrest.2.1.trans h2, hrest.2.2.trans h4⟩

/-- C10: a non-empty portfolio in which every position has zero debt yields
worst_position = None, infinite weighted health factor, HEALTHY overall
status and overall score 100; and a zero-debt position is never selected as
worst_position. -/
theorem C10_zero_debt_portfolio :
    (∀ ps : List Position, ps ≠ [] → (∀ p ∈ ps, p.total_debt_usd = 0) →
      (calculate_unified_health_score ps).worst_position = none
      ∧ (calculate_unified_health_score ps).weighted_health_factor = .inf
      ∧ (calculate_unified_health_score ps).overall_status = .HEALTHY
      ∧ (calculate_unified_health_score ps).overall_score = 100)
    ∧ (∀ (ps : List Position) (p : Position),
        (calculate_unified_health_score ps).worst_position = some p →
        0 < p.total_debt_usd) := by
  constructor
  · intro ps hne hzero
    obtain ⟨p0, rest, rfl⟩ : ∃ p0 rest, ps = p0 :: rest := by
      cases ps with
      | nil => exact absurd rfl hne
      | cons p0 rest => exact ⟨p0, rest, rfl⟩
    obtain ⟨hw, hm, hws⟩ :=
      foldl_unified_step_zero_debt (p0 :: rest) unified_init hzero
    have hminf : ((p0 :: rest).foldl unified_step unified_init).min_hf
        = .inf := by rw [hm]; rfl
    have hws0 : ((p0 :: rest).foldl unified_step unified_init).weight_sum
        = 0 := by rw [hws]; rfl
    refine ⟨?_, ?_, ?_, ?_⟩
    · show ((p0 :: rest).foldl unified_step unified_init).worst_position = none
      rw [hw]
      rfl
    · show (if 0 < ((p0 :: rest).foldl unified_step unified_init).weight_sum
          then HFVal.fin _ else .inf) = .inf
      rw [hws0]
      norm_num
    · show waterfall_spec
          ((p0 :: rest).foldl unified_step unified_init).min_hf = .HEALTHY
      rw [hminf]
      rfl
    · show calculate_normalized_score
          ((p0 :: rest).foldl unified_step unified_init).min_hf = 100
      rw [hminf]
      rfl
  · intro ps p hw
    cases ps with
    | nil => simp [calculate_unified_health_score] at hw
    | cons p0 rest =>
      have hinv :=
        foldl_unified_inv (p0 :: rest) [] unified_init unified_inv_init
      exact (hinv.2 p hw).2.1

/-- Witness for C10 on a one-element zero-debt portfolio. -/
theorem C10_zero_debt_portfolio_witness :
    (calculate_unified_health_score [cu_free]).worst_position = none
    ∧ (calculate_unified_health_score [cu_free]).overall_status = .HEALTHY
    ∧ (calculate_unified_health_score [cu_free]).overall_score = 100 := by
  obtain ⟨h1, _, h3, h4⟩ := C10_zero_debt_portfolio.1 [cu_free]
    (by simp) (by simp [cu_free])
  exact ⟨h1, h3, h4⟩

/-- C6 counterexample: on the non-empty all-debt-free portfolio,
calculate_unified_health_score sets worst_position to None, so it does not
set worst_position to a position with the minimum health factor. -/
theorem C6_counterexample :
    [cu_free] ≠ ([] : List Position)
    ∧ (calculate_unified_health_score [cu_free]).worst_position = none := by
  refine ⟨by simp, ?_⟩
  norm_num [calculate_unified_health_score, unified_step, unified_init,
    cu_free, dict_insert, List.foldl]

/-- C6 amended: for every non-empty list of positions satisfying the
adapter invariant (health factor infinite iff debt zero, debt nonnegative)
and containing at least one debt-bearing position, worst_position is a
debt-bearing position of the list whose health factor is minimal, and
overall_status and overall_score are derived from that minimum through the
fixed waterfall 1.0 / 1.1 / 1.5 and the normalized score. -/
theorem C6_worst_position_drives_status :
    ∀ ps : List Position, ps ≠ [] →
    (∀ p ∈ ps, (p.health_factor = .inf ↔ p.total_debt_usd = 0)) →
    (∀ p ∈ ps, 0 ≤ p.total_debt_usd) →
    (∃ p ∈ ps, 0 < p.total_debt_usd) →
    ∃ w, (calculate_unified_health_score ps).worst_position = some w
      ∧ w ∈ ps ∧ 0 < w.total_debt_usd
      ∧ (∀ q ∈ ps, w.health_factor.le q.health_factor = true)
      ∧ (calculate_unified_health_score ps).overall_status
          = waterfall_spec w.health_factor
      ∧ (calculate_unified_health_score ps).overall_score
          = calculate_normalized_score w.health_factor := by
  intro ps hne hiff hnn hex
  obtain ⟨pd, hpd, hpdd⟩ := hex
  obtain ⟨p0, rest, rfl⟩ : ∃ p0 rest, ps = p0 :: rest := by
    cases ps with
    | nil => exact absurd rfl hne
    | cons p0 rest => exact ⟨p0, rest, rfl⟩
  have hinv := foldl_unified_inv (p0 :: rest) [] unified_init unified_inv_init
  rcases hworst : ((p0 :: rest).foldl unified_step unified_init).worst_position
      with _ | w
  · obtain ⟨hminf, hall⟩ := hinv.1 hworst
    have hlt : pd.health_factor.lt .inf = false := hall pd hpd hpdd
    have hinf : pd.health_factor = .inf := HFVal.lt_inf_eq_false_iff.mp hlt
    have hzero : pd.total_debt_usd = 0 := (hiff pd hpd).mp hinf
    rw [hzero] at hpdd
    exact absurd hpdd (lt_irrefl 0)
  · obtain ⟨hmem, hwd, hmin, hall⟩ := hinv.2 w hworst
    refine ⟨w, hworst, hmem, hwd, ?_, ?_, ?_⟩
    · intro q hq
      by_cases hqd : 0 < q.total_debt_usd
      · have hql := hall q hq hqd
        have hle := HFVal.le_of_lt_eq_false hql
        rw [hmin] at hle
        exact hle
      · have hq0 : q.total_debt_usd = 0 :=
          le_antisymm (not_lt.mp hqd) (hnn q hq)
        have hqinf : q.health_factor = .inf := (hiff q hq).mpr hq0
        rw [hqinf]
        exact HFVal.le_inf _
    · show waterfall_spec
          ((p0 :: rest).foldl unified_step unified_init).min_hf
        = waterfall_spec w.health_factor
      rw [hmin]
    · show calculate_normalized_score
          ((p0 :: rest).foldl unified_step unified_init).min_hf
        = calculate_normalized_score w.health_factor
      rw [hmin]

/-- Witness for the amended C6: the two-position portfolio with health
factors 3.0 and 1.2 yields overall status WARNING and worst position the
health-factor-1.2 position. -/
theorem C6_worst_position_drives_status_witness :
    (calculate_unified_health_score [cu_pos_a, cu_pos_b]).overall_status
      = .WARNING
    ∧ (calculate_unified_health_score [cu_pos_a, cu_pos_b]).worst_position
      = some cu_pos_b := by
  obtain ⟨w, hworst, _, _, _, hstatus, _⟩ :=
    C6_worst_position_drives_status [cu_pos_a, cu_pos_b]
      (by simp)
      (by
        intro p hp
        simp only [List.mem_cons, List.mem_singleton] at hp
        rcases hp with rfl | rfl | h
        · simp [cu_pos_a]
        · simp [cu_pos_b]
        · simp at h)
      (by
        intro p hp
        simp only [List.mem_cons, List.mem_singleton] at hp
        rcases hp with rfl | rfl | h
        · norm_num [cu_pos_a]
        · norm_num [cu_pos_b]
        · simp at h)
      ⟨cu_pos_a, by simp, by norm_num [cu_pos_a]⟩
  have hwb : (calculate_unified_health_score [cu_pos_a, cu_pos_b]).worst_position
      = some cu_pos_b := by
    norm_num [calculate_unified_health_score, unified_step, unified_init,
      cu_pos_a, cu_pos_b, dict_insert, List.foldl, HFVal.lt]
  rw [hwb] at hworst
  have hww : cu_pos_b = w := by injection hworst
  refine ⟨?_, hwb⟩
  rw [hstatus, ← hww]
  norm_num [waterfall_spec, cu_pos_b, HFVal.leQ]

/-- Branch-free shape of the check_and_alert decision: the send decision
depends only on the healthy-and-not-rapid early return, the per-key
should_alert outcome and the rapid-deterioration flag, and the gas-cost
warning is attached exactly on sent alerts that are uneconomical at
CRITICAL or LIQUIDATABLE status. -/
theorem check_and_alert_decision_shape (record? : Option AlertRecord)
    (history : List (ℚ × HFVal)) (position : Position) (status : HealthStatus)
    (g e : Option ℚ) (now : ℚ) :
    (check_and_alert record? history position status g e now).1.sends
      = (!(decide (status = HealthStatus.HEALTHY)
            && !(rate_triggers (get_deterioration_rate
                (history_add history now position.health_factor) now 60) 10))
         && ((should_alert record? status position.health_factor now).1
             || rate_triggers (get_deterioration_rate
                (history_add history now position.health_factor) now 60) 10))
    ∧ (check_and_alert record? history position status g e now).1.gas_warning
      = ((check_and_alert record? history position status g e now).1.sends
         && !(is_gas_economical position g e).1
         && (decide (status = HealthStatus.CRITICAL)
             || decide (status = HealthStatus.LIQUIDATABLE))) := by
  simp only [check_and_alert]
  cases hrapid : rate_triggers (get_deterioration_rate
      (history_add history now position.health_factor) now 60) 10 <;>
    rcases hsa : should_alert record? status position.health_factor now
      with ⟨b, reason?⟩ <;>
    cases b <;>
    by_cases hH : status = HealthStatus.HEALTHY <;>
    simp [hrapid, hsa, hH]

theorem is_gas_economical_false_iff (position : Position) (gq ep : ℚ)
    (hcoll : 0 < position.total_collateral_usd) :
    (is_gas_economical position (some gq) (some ep)).1 = false
      ↔ 5 < gq * 200000 / 1000000000 * ep
            / position.total_collateral_usd * 100 := by
  simp only [is_gas_economical, if_pos hcoll]
  by_cases h : 5 < gq * 200000 / 1000000000 * ep
      / position.total_collateral_usd * 100
  · simp [h]
  · simp [h]

/-- C4: whenever the deterioration watchdog reports a finite trailing-window
drop above 10 percent for the observation being processed, check_and_alert
decides to send, even for a HEALTHY assessment, and whenever the per-key
cooldown logic alone would have suppressed the alert, the fire reason is
rapid_deterioration. -/
theorem C4_rapid_deterioration_forces_fire :
    ∀ (record? : Option AlertRecord) (history : List (ℚ × HFVal))
      (position : Position) (status : HealthStatus)
      (gas_price_gwei eth_price_usd : Option ℚ) (now r : ℚ),
      get_deterioration_rate (history_add history now position.health_factor)
          now 60 = some (.fin r) →
      10 < r →
      ((check_and_alert record? history position status gas_price_gwei
          eth_price_usd now).1.sends = true
       ∧ ((should_alert record? status position.health_factor now).1 = false →
          (check_and_alert record? history position status gas_price_gwei
              eth_price_usd now).1.reason = some "rapid_deterioration")) := by
  intro record? history position status g e now r hrate hr
  have hr0 : r ≠ 0 := by
    intro h
    rw [h] at hr
    norm_num at hr
  have hrapid : rate_triggers (get_deterioration_rate
      (history_add history now position.health_factor) now 60) 10 = true := by
    rw [hrate]
    simp [rate_triggers, hr0, hr]
  constructor
  · rw [(check_and_alert_decision_shape record? history position status
      g e now).1, hrapid]
    simp
  · intro hsupp
    simp only [check_and_alert]
    rw [hrapid]
    rcases hsa : should_alert record? status position.health_factor now
      with ⟨b, reason?⟩
    rw [hsa] at hsupp
    simp at hsupp
    subst hsupp
    simp

/-- Witness for C4: a HEALTHY position whose history fell from health
factor 2 to 1 inside the hour fires with reason rapid_deterioration even
though the per-key logic would suppress. -/
theorem C4_rapid_deterioration_forces_fire_witness :
    (check_and_alert (some c4_record) [((0:ℚ), HFVal.fin 2)] c4_pos
        .HEALTHY none none 4000).1.sends = true
    ∧ (check_and_alert (some c4_record) [((0:ℚ), HFVal.fin 2)] c4_pos
        .HEALTHY none none 4000).1.reason = some "rapid_deterioration" := by
  have hrate : get_deterioration_rate
      (history_add [((0:ℚ), HFVal.fin 2)] 4000 c4_pos.health_factor) 4000 60
      = some (.fin 50) := by
    norm_num [get_deterioration_rate, history_add, old_sample, old_before,
      last_sample, rate_of, c4_pos]
  have hsupp : (should_alert (some c4_record) .HEALTHY c4_pos.health_factor
      4000).1 = false := by
    norm_num [should_alert, c4_record, c4_pos, status_priority,
      hf_drop_significant, cooldown_period]
  obtain ⟨hsends, hreason⟩ :=
    C4_rapid_deterioration_forces_fire (some c4_record) [((0:ℚ), HFVal.fin 2)]
      c4_pos .HEALTHY none none 4000 50 hrate (by norm_num)
  exact ⟨hsends, hreason hsupp⟩

/-- C9 counterexample: for a CRITICAL position with zero collateral value
and gas inputs making the estimated transaction cost 400 dollars (which
exceeds 5 percent of the collateral value, namely 0), the alert is sent but
no gas-cost warning is appended, contradicting the claim that the warning
is appended whenever the cost exceeds 5 percent of the collateral value. -/
theorem C9_counterexample :
    (check_and_alert none [] c9_pos .CRITICAL (some 1000) (some 2000) 0).1.sends
      = true
    ∧ (check_and_alert none [] c9_pos .CRITICAL
        (some 1000) (some 2000) 0).1.gas_warning = false
    ∧ 5 / 100 * c9_pos.total_collateral_usd
        < 1000 * 200000 / 1000000000 * 2000 := by
  refine ⟨?_, ?_, by norm_num [c9_pos]⟩ <;>
    · norm_num [check_and_alert, history_add, get_deterioration_rate,
        old_sample, old_before, last_sample, rate_triggers, should_alert,
        is_gas_economical, c9_pos]
      simp

/-- C9 amended: the send decision of check_and_alert is identical for any
two values of the gas inputs (gas cost never suppresses an alert), and for
a CRITICAL or LIQUIDATABLE assessment on a position with positive
collateral value the gas-cost warning is appended exactly when the alert is
sent and the estimated cost of a 200000-gas transaction exceeds 5 percent
of the collateral value. -/
theorem C9_gas_never_blocks :
    ∀ (record? : Option AlertRecord) (history : List (ℚ × HFVal))
      (position : Position) (status : HealthStatus)
      (g1 e1 g2 e2 : Option ℚ) (now : ℚ),
      ((check_and_alert record? history position status g1 e1 now).1.sends
        = (check_and_alert record? history position status g2 e2 now).1.sends)
      ∧ ((status = .CRITICAL ∨ status = .LIQUIDATABLE) →
          ∀ gq ep : ℚ, 0 < position.total_collateral_usd →
          ((check_and_alert record? history position status
              (some gq) (some ep) now).1.gas_warning = true
            ↔ ((check_and_alert record? history position status
                  (some gq) (some ep) now).1.sends = true
               ∧ 5 < gq * 200000 / 1000000000 * ep
                    / position.total_collateral_usd * 100))) := by
  intro record? history position status g1 e1 g2 e2 now
  constructor
  · rw [(check_and_alert_decision_shape record? history position status
        g1 e1 now).1,
      (check_and_alert_decision_shape record? history position status
        g2 e2 now).1]
  · intro hstat gq ep hcoll
    rw [(check_and_alert_decision_shape record? history position status
        (some gq) (some ep) now).2]
    have hecon := is_gas_economical_false_iff position gq ep hcoll
    constructor
    · intro h
      simp only [Bool.and_eq_true, Bool.not_eq_true'] at h
      exact ⟨h.1.1, hecon.mp h.1.2⟩
    · rintro ⟨hsends, hcost⟩
      have heconf : (is_gas_economical position (some gq) (some ep)).1
          = false := hecon.mpr hcost
      rw [hsends, heconf]
      rcases hstat with rfl | rfl <;> simp

/-- Witness for the amended C9: on the critical collateral-bearing
position, the send decision with expensive gas equals the decision with no
gas data, and 600-gwei gas at 2000-dollar ETH (cost 240 dollars, 24 percent
of the 1000-dollar collateral) yields a gas warning on the sent alert. -/
theorem C9_gas_never_blocks_witness :
    ((check_and_alert none [] c9_pos2 .CRITICAL (some 600) (some 2000) 0).1.sends
      = (check_and_alert none [] c9_pos2 .CRITICAL none none 0).1.sends)
    ∧ (check_and_alert none [] c9_pos2 .CRITICAL
        (some 600) (some 2000) 0).1.gas_warning = true := by
  have h := C9_gas_never_blocks none [] c9_pos2 .CRITICAL
    (some 600) (some 2000) none none 0
  refine ⟨h.1, ?_⟩
  refine (h.2 (Or.inl rfl) 600 2000 (by norm_num [c9_pos2])).mpr ⟨?_, ?_⟩
  · norm_num [check_and_alert, history_add, get_deterioration_rate,
      old_sample, old_before, last_sample, rate_triggers, should_alert,
      is_gas_economical, c9_pos2]
    simp
  · norm_num [c9_pos2]

end LA
